import Mathlib

/-!
Verification development for the Hoberman sphere linkage code
(js/ScissorLink.js, js/HobermanSphere.js).

The geometric state of the program is embedded shallowly over the reals:

* Vec3 models THREE.Vector3 (r128) with the vector operations that the
  repository calls: add, sub (subVectors), multiplyScalar, divideScalar,
  crossVectors, length, distanceTo and normalize.  In r128, normalize is
  divideScalar(length() or 1): a zero-length vector is divided by 1 and
  therefore stays the zero vector, it is not an error.
* ScissorLink carries the construction parameters together with the
  derived positional state recomputed by updateGeometry and
  updateEndpoints (strut centres, pivot, the four endpoints); the
  quaternion orientation of the strut meshes is pure rendering state and
  is not needed by any property below.
* HobermanSphere carries the configuration (minRadius, maxRadius,
  strutRadius), the animation state, the owned scissor links and the
  connecting-strut records; the icosahedron vertex list produced by
  THREE.IcosahedronGeometry is an input parameter of the build.
-/

noncomputable section

/-- Three-component real vector, modelling THREE.Vector3. -/
@[ext]
structure Vec3 where
  x : ℝ
  y : ℝ
  z : ℝ

def Vec3.add (v w : Vec3) : Vec3 :=
  ⟨v.x + w.x, v.y + w.y, v.z + w.z⟩

def Vec3.sub (v w : Vec3) : Vec3 :=
  ⟨v.x - w.x, v.y - w.y, v.z - w.z⟩

def Vec3.multiplyScalar (v : Vec3) (s : ℝ) : Vec3 :=
  ⟨v.x * s, v.y * s, v.z * s⟩

def Vec3.divideScalar (v : Vec3) (s : ℝ) : Vec3 :=
  v.multiplyScalar (1 / s)

def Vec3.cross (v w : Vec3) : Vec3 :=
  ⟨v.y * w.z - v.z * w.y, v.z * w.x - v.x * w.z, v.x * w.y - v.y * w.x⟩

def Vec3.length (v : Vec3) : ℝ :=
  Real.sqrt (v.x * v.x + v.y * v.y + v.z * v.z)

def Vec3.distanceTo (v w : Vec3) : ℝ :=
  (v.sub w).length

/-- THREE.Vector3.normalize in r128: divideScalar(this.length() or 1),
so a zero-length vector is left unchanged. -/
def Vec3.normalize (v : Vec3) : Vec3 :=
  v.divideScalar (if v.length = 0 then 1 else v.length)

/-!
### ScissorLink (js/ScissorLink.js)

The constructor stores a clone of the position, the normalized axis, the
strut dimensions and an initial expansionFactor of 0.5, then initialize()
builds the meshes and calls updateGeometry().  updateGeometry() derives the
opening angle, the perpendicular frame and the strut centre positions, and
updateEndpoints() derives the four connection endpoints.  Only the
positional state is modelled; mesh/material handling has no geometric
content.
-/

structure ScissorLink where
  position : Vec3
  axis : Vec3
  strutLength : ℝ
  strutRadius : ℝ
  expansionFactor : ℝ
  strut1Pos : Vec3
  strut2Pos : Vec3
  pivotPos : Vec3
  top1 : Vec3
  top2 : Vec3
  bottom1 : Vec3
  bottom2 : Vec3

/-- The unnormalized first perpendicular direction chosen by
updateGeometry: axis x (0,1,0) unless the axis is nearly vertical,
in which case axis x (1,0,0). -/
def perpRef (axis : Vec3) : Vec3 :=
  if |axis.y| < 0.9 then axis.cross ⟨0, 1, 0⟩ else axis.cross ⟨1, 0, 0⟩

/-- ScissorLink.updateGeometry together with updateEndpoints: recomputes
the strut centres, the pivot position and the four endpoints from the
stored fields.  The quaternion orientation of the two strut meshes (the
rotateOnAxis calls about perpAxis2) is rendering-only and not modelled. -/
def ScissorLink.updateGeometry (l : ScissorLink) : ScissorLink :=
  let openAngle := l.expansionFactor * Real.pi / 2
  let perpAxis1 := (perpRef l.axis).normalize
  let halfLength := l.strutLength / 2
  let offset := halfLength * Real.sin openAngle
  let height := halfLength * Real.cos openAngle
  { l with
    strut1Pos := l.position.add (perpAxis1.multiplyScalar offset)
    strut2Pos := l.position.add (perpAxis1.multiplyScalar (-offset))
    pivotPos := l.position
    top1 := (l.position.add (l.axis.multiplyScalar height)).add
      (perpAxis1.multiplyScalar offset)
    top2 := (l.position.add (l.axis.multiplyScalar height)).add
      (perpAxis1.multiplyScalar (-offset))
    bottom1 := (l.position.add (l.axis.multiplyScalar (-height))).add
      (perpAxis1.multiplyScalar offset)
    bottom2 := (l.position.add (l.axis.multiplyScalar (-height))).add
      (perpAxis1.multiplyScalar (-offset)) }

/-- The ScissorLink constructor followed by initialize(): stores the
parameters (axis normalized, expansionFactor 0.5, endpoints zeroed) and
runs updateGeometry.  There is no validation: every input produces a
link. -/
def ScissorLink.construct (position axis : Vec3) (length radius : ℝ) :
    ScissorLink :=
  ScissorLink.updateGeometry
    { position := position
      axis := axis.normalize
      strutLength := length
      strutRadius := radius
      expansionFactor := 0.5
      strut1Pos := ⟨0, 0, 0⟩
      strut2Pos := ⟨0, 0, 0⟩
      pivotPos := ⟨0, 0, 0⟩
      top1 := ⟨0, 0, 0⟩
      top2 := ⟨0, 0, 0⟩
      bottom1 := ⟨0, 0, 0⟩
      bottom2 := ⟨0, 0, 0⟩ }

/-- ScissorLink.setExpansion: clamps the factor to the unit interval with
Math.max(0, Math.min(1, factor)) and recomputes the geometry. -/
def ScissorLink.setExpansion (l : ScissorLink) (factor : ℝ) : ScissorLink :=
  ScissorLink.updateGeometry { l with expansionFactor := max 0 (min 1 factor) }

/-- ScissorLink.getCurrentRadius: (strutLength/2) * cos(expansionFactor * pi/2). -/
def ScissorLink.getCurrentRadius (l : ScissorLink) : ℝ :=
  (l.strutLength / 2) * Real.cos (l.expansionFactor * Real.pi / 2)

/-- A concrete link used to instantiate universally quantified theorems. -/
def sampleLink : ScissorLink :=
  { position := ⟨0, 0, 4⟩
    axis := ⟨0, 0, 1⟩
    strutLength := 4
    strutRadius := 1 / 10
    expansionFactor := 1 / 2
    strut1Pos := ⟨0, 0, 0⟩
    strut2Pos := ⟨0, 0, 0⟩
    pivotPos := ⟨0, 0, 0⟩
    top1 := ⟨0, 0, 0⟩
    top2 := ⟨0, 0, 0⟩
    bottom1 := ⟨0, 0, 0⟩
    bottom2 := ⟨0, 0, 0⟩ }

/-!
### HobermanSphere (js/HobermanSphere.js)

buildSphere() reads the vertex array of a THREE.IcosahedronGeometry (an
external collaborator), deduplicates it, creates one radial scissor link
per unique vertex and one connecting strut per close pair.  The embedding
takes the raw vertex list as a parameter of the build.
-/

structure SphereConfig where
  minRadius : ℝ
  maxRadius : ℝ
  strutRadius : ℝ

/-- A connecting strut: the stored reference endpoints
(userData.point1/point2) plus the derived midpoint, length and
orientation direction (the unit vector handed to setFromUnitVectors). -/
structure ConnectionStrut where
  point1 : Vec3
  point2 : Vec3
  midpoint : Vec3
  len : ℝ
  dir : Vec3

structure HobermanSphere where
  config : SphereConfig
  expansionFactor : ℝ
  isAnimating : Bool
  animationSpeed : ℝ
  rotationSpeed : ℝ
  pitchSpeed : ℝ
  currentPitch : ℝ
  rotationX : ℝ
  rotationY : ℝ
  rotationZ : ℝ
  scissorLinks : List ScissorLink
  connectionStruts : List ConnectionStrut

/-- HobermanSphere.removeDuplicateVertices: keeps a vertex only when no
already-kept vertex lies within Euclidean distance 0.0001 of it. -/
def removeDuplicateVertices (vertices : List Vec3) : List Vec3 :=
  vertices.foldl
    (fun unique v =>
      if unique.any (fun u => decide (u.distanceTo v < 0.0001)) then unique
      else unique ++ [v])
    []

/-- HobermanSphere.createRadialScissorLink: one scissor link along the
normalized vertex direction, centred at direction * (maxRadius * 0.5),
with strutLength = maxRadius * 0.5. -/
def createRadialScissorLink (cfg : SphereConfig) (vertex : Vec3) :
    ScissorLink :=
  let direction := vertex.normalize
  let midPoint := direction.multiplyScalar (cfg.maxRadius * 0.5)
  let strutLength := cfg.maxRadius * 0.5
  ScissorLink.construct midPoint direction strutLength cfg.strutRadius

/-- HobermanSphere.createConnectionStrut: stores the two reference points
and derives midpoint, length and orientation from them. -/
def createConnectionStrut (point1 point2 : Vec3) : ConnectionStrut :=
  let direction := point2.sub point1
  { point1 := point1
    point2 := point2
    midpoint := (point1.add point2).multiplyScalar 0.5
    len := direction.length
    dir := direction.normalize }

/-- Inner loop of createConnectingStruts: connect v to every later vertex
within distance 1.2. -/
def connectFrom (v : Vec3) (rest : List Vec3) : List ConnectionStrut :=
  rest.filterMap
    (fun w =>
      if v.distanceTo w < 1.2 then some (createConnectionStrut v w) else none)

/-- HobermanSphere.createConnectingStruts: the double loop over index
pairs i < j with connectionThreshold = 1.2. -/
def createConnectingStruts : List Vec3 → List ConnectionStrut
  | [] => []
  | v :: rest => connectFrom v rest ++ createConnectingStruts rest

/-- The HobermanSphere constructor plus buildSphere, taking the raw
icosahedron vertex list as input.  Initial expansionFactor is 0.5 and the
animation starts paused with all rotation state zero. -/
def HobermanSphere.construct (cfg : SphereConfig)
    (vertexPositions : List Vec3) : HobermanSphere :=
  let uniqueVertices := removeDuplicateVertices vertexPositions
  { config := cfg
    expansionFactor := 0.5
    isAnimating := false
    animationSpeed := 0.3
    rotationSpeed := 0.2
    pitchSpeed := 0.1
    currentPitch := 0
    rotationX := 0
    rotationY := 0
    rotationZ := 0
    scissorLinks := uniqueVertices.map (createRadialScissorLink cfg)
    connectionStruts := createConnectingStruts uniqueVertices }

/-- Body of HobermanSphere.updateConnectionStruts for one strut: scale
both stored reference points by currentRadius / maxRadius where
currentRadius = minRadius + (maxRadius - minRadius) * expansionFactor,
then re-derive midpoint, length and orientation from the scaled points. -/
def updateConnectionStrut (cfg : SphereConfig) (expansionFactor : ℝ)
    (s : ConnectionStrut) : ConnectionStrut :=
  let currentRadius :=
    cfg.minRadius + (cfg.maxRadius - cfg.minRadius) * expansionFactor
  let scaleFactor := currentRadius / cfg.maxRadius
  let point1 := s.point1.multiplyScalar scaleFactor
  let point2 := s.point2.multiplyScalar scaleFactor
  let direction := point2.sub point1
  { s with
    midpoint := (point1.add point2).multiplyScalar 0.5
    len := direction.length
    dir := direction.normalize }

/-- The scale applied to the stored reference points of a connecting
strut: currentRadius / maxRadius with
currentRadius = minRadius + (maxRadius - minRadius) * expansionFactor. -/
def connectionScale (cfg : SphereConfig) (expansionFactor : ℝ) : ℝ :=
  (cfg.minRadius + (cfg.maxRadius - cfg.minRadius) * expansionFactor)
    / cfg.maxRadius

/-- HobermanSphere.updateConnectionStruts: recompute every connecting
strut from the current expansion factor. -/
def HobermanSphere.updateConnectionStruts (h : HobermanSphere) :
    HobermanSphere :=
  { h with
    connectionStruts :=
      h.connectionStruts.map (updateConnectionStrut h.config h.expansionFactor) }

/-- HobermanSphere.setExpansion: clamp the factor to the unit interval,
push it to every scissor link, then update the connection struts. -/
def HobermanSphere.setExpansion (h : HobermanSphere) (factor : ℝ) :
    HobermanSphere :=
  let f := max 0 (min 1 factor)
  HobermanSphere.updateConnectionStruts
    { h with
      expansionFactor := f
      scissorLinks := h.scissorLinks.map (fun l => l.setExpansion f) }

def HobermanSphere.startAnimation (h : HobermanSphere) : HobermanSphere :=
  { h with isAnimating := true }

def HobermanSphere.stopAnimation (h : HobermanSphere) : HobermanSphere :=
  { h with isAnimating := false }

/-- HobermanSphere.update: when animating, drive the breathing expansion
from the wall clock (Date.now(), the parameter now, in milliseconds) and
advance the rotation state; when paused, do nothing at all. -/
def HobermanSphere.update (h : HobermanSphere) (deltaTime now : ℝ) :
    HobermanSphere :=
  if h.isAnimating then
    let breathingCycle := Real.sin (now * 0.001 * h.animationSpeed) * 0.5 + 0.5
    let h1 := h.setExpansion breathingCycle
    let newPitch := h1.currentPitch + h1.pitchSpeed * deltaTime
    { h1 with
      rotationY := h1.rotationY + h1.rotationSpeed * deltaTime
      currentPitch := newPitch
      rotationX := Real.sin newPitch * 0.4
      rotationZ := Real.cos (newPitch * 0.7) * 0.3 }
  else h

/-- The configuration used by js/main.js. -/
def sampleConfig : SphereConfig :=
  { minRadius := 2, maxRadius := 8, strutRadius := 8 / 100 }

/-- A concrete one-link assembly used to instantiate theorems. -/
def sampleAssembly : HobermanSphere :=
  HobermanSphere.construct sampleConfig [⟨1, 0, 0⟩]

theorem Vec3.length_nonneg (v : Vec3) : 0 ≤ v.length :=
  Real.sqrt_nonneg _

theorem Vec3.length_eq_zero_iff (v : Vec3) : v.length = 0 ↔ v = ⟨0, 0, 0⟩ := by
  unfold Vec3.length
  constructor
  · intro h
    have hsum : v.x * v.x + v.y * v.y + v.z * v.z ≤ 0 := Real.sqrt_eq_zero'.mp h
    have hx : v.x = 0 := by nlinarith [mul_self_nonneg v.x, mul_self_nonneg v.y, mul_self_nonneg v.z]
    have hy : v.y = 0 := by nlinarith [mul_self_nonneg v.x, mul_self_nonneg v.y, mul_self_nonneg v.z]
    have hz : v.z = 0 := by nlinarith [mul_self_nonneg v.x, mul_self_nonneg v.y, mul_self_nonneg v.z]
    cases v
    simp_all
  · intro h
    subst h
    simp [Real.sqrt_eq_zero']

theorem Vec3.length_multiplyScalar (v : Vec3) (s : ℝ) :
    (v.multiplyScalar s).length = |s| * v.length := by
  unfold Vec3.length Vec3.multiplyScalar
  have h : v.x * s * (v.x * s) + v.y * s * (v.y * s) + v.z * s * (v.z * s)
      = (s * s) * (v.x * v.x + v.y * v.y + v.z * v.z) := by ring
  rw [h, Real.sqrt_mul (mul_self_nonneg s), Real.sqrt_mul_self_eq_abs]

theorem Vec3.length_normalize (v : Vec3) (h : v.length ≠ 0) :
    v.normalize.length = 1 := by
  have hpos : 0 < v.length := lt_of_le_of_ne v.length_nonneg (Ne.symm h)
  unfold Vec3.normalize Vec3.divideScalar
  rw [if_neg h, Vec3.length_multiplyScalar, abs_of_pos (by positivity)]
  field_simp

theorem Vec3.add_sub_cancel_left (v w : Vec3) : (v.add w).sub v = w := by
  cases v; cases w
  simp [Vec3.add, Vec3.sub]

/-- Distance between two points on the x-axis. -/
theorem Vec3.distanceTo_xAxis (a b : ℝ) :
    Vec3.distanceTo ⟨a, 0, 0⟩ ⟨b, 0, 0⟩ = |a - b| := by
  unfold Vec3.distanceTo Vec3.sub Vec3.length
  simp [Real.sqrt_mul_self_eq_abs]

/-! ### Helper lemmas about the Math.max(0, Math.min(1, f)) clamp -/

theorem clamp01_eq_self {f : ℝ} (h0 : 0 ≤ f) (h1 : f ≤ 1) :
    max 0 (min 1 f) = f := by
  rw [min_eq_right h1, max_eq_right h0]

theorem clamp01_nonneg (f : ℝ) : 0 ≤ max 0 (min 1 f) :=
  le_max_left 0 _

theorem clamp01_le_one (f : ℝ) : max 0 (min 1 f) ≤ 1 :=
  max_le zero_le_one (min_le_left 1 f)

theorem clamp01_idem (f : ℝ) :
    max 0 (min 1 (max 0 (min 1 f))) = max 0 (min 1 f) :=
  clamp01_eq_self (clamp01_nonneg f) (clamp01_le_one f)

theorem clamp01_zero : max (0:ℝ) (min 1 0) = 0 :=
  clamp01_eq_self le_rfl zero_le_one

theorem clamp01_one : max (0:ℝ) (min 1 1) = 1 :=
  clamp01_eq_self zero_le_one le_rfl

theorem clamp01_neg_one : max (0:ℝ) (min 1 (-1)) = 0 := by
  rw [min_eq_right (by norm_num : (-1:ℝ) ≤ 1)]
  exact max_eq_left (by norm_num)

theorem clamp01_two : max (0:ℝ) (min 1 2) = 1 := by
  rw [min_eq_left (by norm_num : (1:ℝ) ≤ 2)]
  exact max_eq_right zero_le_one

/-! ### Projection lemmas for the link operations -/

theorem ScissorLink.updateGeometry_expansionFactor (l : ScissorLink) :
    (l.updateGeometry).expansionFactor = l.expansionFactor := rfl

theorem ScissorLink.setExpansion_factor (l : ScissorLink) (f : ℝ) :
    (l.setExpansion f).expansionFactor = max 0 (min 1 f) := rfl

theorem ScissorLink.setExpansion_strutLength (l : ScissorLink) (f : ℝ) :
    (l.setExpansion f).strutLength = l.strutLength := rfl

theorem ScissorLink.setExpansion_axis (l : ScissorLink) (f : ℝ) :
    (l.setExpansion f).axis = l.axis := rfl

theorem HobermanSphere.setExpansion_sphereFactor (h : HobermanSphere)
    (f : ℝ) : (h.setExpansion f).expansionFactor = max 0 (min 1 f) := rfl

theorem HobermanSphere.setExpansion_config (h : HobermanSphere) (f : ℝ) :
    (h.setExpansion f).config = h.config := rfl

theorem HobermanSphere.setExpansion_scissorLinks (h : HobermanSphere)
    (f : ℝ) :
    (h.setExpansion f).scissorLinks
      = h.scissorLinks.map (fun l => l.setExpansion (max 0 (min 1 f))) := rfl

theorem HobermanSphere.setExpansion_connectionStruts (h : HobermanSphere)
    (f : ℝ) :
    (h.setExpansion f).connectionStruts
      = h.connectionStruts.map
          (updateConnectionStrut h.config (max 0 (min 1 f))) := rfl

/-- updateConnectionStrut only rewrites the derived fields, so applying it
twice is the same as applying it once with the outer factor. -/
theorem updateConnectionStrut_updateConnectionStrut (cfg : SphereConfig)
    (a b : ℝ) (s : ConnectionStrut) :
    updateConnectionStrut cfg a (updateConnectionStrut cfg b s)
      = updateConnectionStrut cfg a s := rfl

/-- Every link of an assembly after setExpansion carries exactly the
clamped assembly factor. -/
theorem setExpansion_link_factor (g : HobermanSphere) (c : ℝ) :
    ∀ l ∈ (g.setExpansion c).scissorLinks,
      l.expansionFactor = (g.setExpansion c).expansionFactor := by
  intro l hm
  rw [HobermanSphere.setExpansion_scissorLinks] at hm
  obtain ⟨l0, _, rfl⟩ := List.mem_map.mp hm
  rw [ScissorLink.setExpansion_factor,
    HobermanSphere.setExpansion_sphereFactor]
  exact clamp01_idem c

/-- While animating, update delegates the expansion state to setExpansion
with the breathing value. -/
theorem HobermanSphere.update_animating (g : HobermanSphere)
    (deltaTime now : ℝ) (hA : g.isAnimating = true) :
    (g.update deltaTime now).scissorLinks
        = (g.setExpansion
            (Real.sin (now * 0.001 * g.animationSpeed) * 0.5 + 0.5)).scissorLinks
      ∧ (g.update deltaTime now).expansionFactor
        = (g.setExpansion
            (Real.sin (now * 0.001 * g.animationSpeed) * 0.5 + 0.5)).expansionFactor := by
  simp [HobermanSphere.update, hA]

/-! ### The claims -/

/-- Claim C1: for every ScissorLink (with its physical nonnegative strut
length) and every expansion factor f in the unit interval set via
setExpansion, getCurrentRadius returns (strutLength/2) * cos(f * pi/2);
this value is monotonically non-increasing in f, equals strutLength/2 at
f = 0 and equals 0 at f = 1. -/
theorem C1_getCurrentRadius (l : ScissorLink) (f g : ℝ)
    (hL : 0 ≤ l.strutLength) (hf : 0 ≤ f) (hfg : f ≤ g) (hg : g ≤ 1) :
    (l.setExpansion f).getCurrentRadius
        = (l.strutLength / 2) * Real.cos (f * Real.pi / 2)
      ∧ (l.setExpansion g).getCurrentRadius
        ≤ (l.setExpansion f).getCurrentRadius
      ∧ (l.setExpansion 0).getCurrentRadius = l.strutLength / 2
      ∧ (l.setExpansion 1).getCurrentRadius = 0 := by
  have hf1 : f ≤ 1 := le_trans hfg hg
  have hg0 : 0 ≤ g := le_trans hf hfg
  have radius_eq : ∀ c : ℝ, 0 ≤ c → c ≤ 1 →
      (l.setExpansion c).getCurrentRadius
        = (l.strutLength / 2) * Real.cos (c * Real.pi / 2) := by
    intro c h0 h1
    rw [ScissorLink.getCurrentRadius, ScissorLink.setExpansion_strutLength,
      ScissorLink.setExpansion_factor, clamp01_eq_self h0 h1]
  refine ⟨radius_eq f hf hf1, ?_, ?_, ?_⟩
  · rw [radius_eq f hf hf1, radius_eq g hg0 hg]
    have hcos : Real.cos (g * Real.pi / 2) ≤ Real.cos (f * Real.pi / 2) := by
      apply Real.cos_le_cos_of_nonneg_of_le_pi
      · have := mul_nonneg hf Real.pi_nonneg
        linarith
      · nlinarith [Real.pi_pos]
      · nlinarith [Real.pi_pos]
    exact mul_le_mul_of_nonneg_left hcos (by linarith)
  · rw [radius_eq 0 le_rfl zero_le_one]
    norm_num
  · rw [radius_eq 1 zero_le_one le_rfl]
    rw [one_mul, Real.cos_pi_div_two, mul_zero]

/-- Witness for C1 at the concrete sample link with f = 0, g = 1. -/
theorem C1_getCurrentRadius_witness :
    0 ≤ sampleLink.strutLength ∧
    ((sampleLink.setExpansion 0).getCurrentRadius
        = (sampleLink.strutLength / 2) * Real.cos (0 * Real.pi / 2)
      ∧ (sampleLink.setExpansion 1).getCurrentRadius
        ≤ (sampleLink.setExpansion 0).getCurrentRadius
      ∧ (sampleLink.setExpansion 0).getCurrentRadius
        = sampleLink.strutLength / 2
      ∧ (sampleLink.setExpansion 1).getCurrentRadius = 0) :=
  ⟨by norm_num [sampleLink],
   C1_getCurrentRadius sampleLink 0 1 (by norm_num [sampleLink]) le_rfl
     zero_le_one le_rfl⟩

/-- Claim C2 counterexample: ScissorLink construction with the
zero-length axis does not fail.  The constructor performs no degeneracy
check at all; THREE r128 normalize divides by (length or 1), so the zero
axis is stored unchanged and a fully built link results. -/
theorem C2_counterexample :
    (ScissorLink.construct ⟨0, 0, 0⟩ ⟨0, 0, 0⟩ 4 (1 / 10)).axis
      = ⟨0, 0, 0⟩ := by
  have h0 : (⟨0, 0, 0⟩ : Vec3).length = 0 :=
    (Vec3.length_eq_zero_iff _).mpr rfl
  have : (ScissorLink.construct ⟨0, 0, 0⟩ ⟨0, 0, 0⟩ 4 (1 / 10)).axis
      = Vec3.normalize ⟨0, 0, 0⟩ := rfl
  rw [this, Vec3.normalize, if_pos h0, Vec3.divideScalar, Vec3.multiplyScalar]
  norm_num

/-- Claim C2 amended: ScissorLink construction is total and never
signals a failure; for every non-zero axis the stored axis is the
normalized (unit-length) input, while a zero axis is stored unchanged as
the zero vector. -/
theorem C2_construct (position axis : Vec3) (length radius : ℝ)
    (h : axis ≠ ⟨0, 0, 0⟩) :
    (ScissorLink.construct position axis length radius).axis.length = 1
      ∧ (ScissorLink.construct position ⟨0, 0, 0⟩ length radius).axis
        = ⟨0, 0, 0⟩ := by
  constructor
  · have hlen : axis.length ≠ 0 := fun h0 =>
      h ((Vec3.length_eq_zero_iff axis).mp h0)
    have e : (ScissorLink.construct position axis length radius).axis
        = axis.normalize := rfl
    rw [e]
    exact Vec3.length_normalize axis hlen
  · have h0 : (⟨0, 0, 0⟩ : Vec3).length = 0 :=
      (Vec3.length_eq_zero_iff _).mpr rfl
    have e : (ScissorLink.construct position ⟨0, 0, 0⟩ length radius).axis
        = Vec3.normalize ⟨0, 0, 0⟩ := rfl
    rw [e, Vec3.normalize, if_pos h0, Vec3.divideScalar, Vec3.multiplyScalar]
    norm_num

/-- Witness for the amended C2 at a concrete non-zero axis. -/
theorem C2_construct_witness :
    (⟨0, 0, 1⟩ : Vec3) ≠ ⟨0, 0, 0⟩ ∧
    ((ScissorLink.construct ⟨0, 0, 4⟩ ⟨0, 0, 1⟩ 4 (1 / 10)).axis.length = 1
      ∧ (ScissorLink.construct ⟨0, 0, 4⟩ ⟨0, 0, 0⟩ 4 (1 / 10)).axis
        = ⟨0, 0, 0⟩) :=
  ⟨by norm_num [Vec3.mk.injEq],
   C2_construct ⟨0, 0, 4⟩ ⟨0, 0, 1⟩ 4 (1 / 10)
     (by norm_num [Vec3.mk.injEq])⟩

/-- Claim C3: setExpansion clamps its argument to the unit interval, for
single links and for the whole assembly: the state after setExpansion(-1)
equals the state after setExpansion(0), and setExpansion(2) equals
setExpansion(1); both functions are total over the reals by type. -/
theorem C3_setExpansion_clamps (l : ScissorLink) (h : HobermanSphere) :
    l.setExpansion (-1) = l.setExpansion 0
      ∧ l.setExpansion 2 = l.setExpansion 1
      ∧ h.setExpansion (-1) = h.setExpansion 0
      ∧ h.setExpansion 2 = h.setExpansion 1 := by
  refine ⟨?_, ?_, ?_, ?_⟩
  · simp only [ScissorLink.setExpansion, clamp01_neg_one, clamp01_zero]
  · simp only [ScissorLink.setExpansion, clamp01_two, clamp01_one]
  · simp only [HobermanSphere.setExpansion, clamp01_neg_one, clamp01_zero]
  · simp only [HobermanSphere.setExpansion, clamp01_two, clamp01_one]

/-- Claim C4: after setExpansion(f) with f in the unit interval, the two
strut centres are center + perp1*offset and center - perp1*offset with
offset = (strutLength/2) * sin(f * pi/2), hence both lie at distance
offset from the link centre, symmetric about it along perp1. -/
theorem C4_strutPositions (l : ScissorLink) (f : ℝ)
    (hf : 0 ≤ f) (hf1 : f ≤ 1) (hL : 0 ≤ l.strutLength)
    (hperp : (perpRef l.axis).length ≠ 0) :
    (l.setExpansion f).strut1Pos
        = l.position.add ((perpRef l.axis).normalize.multiplyScalar
            ((l.strutLength / 2) * Real.sin (f * Real.pi / 2)))
      ∧ (l.setExpansion f).strut2Pos
        = l.position.add ((perpRef l.axis).normalize.multiplyScalar
            (-((l.strutLength / 2) * Real.sin (f * Real.pi / 2))))
      ∧ (l.setExpansion f).strut1Pos.distanceTo l.position
        = (l.strutLength / 2) * Real.sin (f * Real.pi / 2)
      ∧ (l.setExpansion f).strut2Pos.distanceTo l.position
        = (l.strutLength / 2) * Real.sin (f * Real.pi / 2) := by
  have hclamp : max 0 (min 1 f) = f := clamp01_eq_self hf hf1
  have e1 : (l.setExpansion f).strut1Pos
      = l.position.add ((perpRef l.axis).normalize.multiplyScalar
          ((l.strutLength / 2) * Real.sin (f * Real.pi / 2))) := by
    simp only [ScissorLink.setExpansion, ScissorLink.updateGeometry, hclamp]
  have e2 : (l.setExpansion f).strut2Pos
      = l.position.add ((perpRef l.axis).normalize.multiplyScalar
          (-((l.strutLength / 2) * Real.sin (f * Real.pi / 2)))) := by
    simp only [ScissorLink.setExpansion, ScissorLink.updateGeometry, hclamp]
  have hsin : 0 ≤ Real.sin (f * Real.pi / 2) := by
    apply Real.sin_nonneg_of_nonneg_of_le_pi
    · have := mul_nonneg hf Real.pi_nonneg
      linarith
    · nlinarith [Real.pi_pos]
  have hoff : 0 ≤ (l.strutLength / 2) * Real.sin (f * Real.pi / 2) :=
    mul_nonneg (by linarith) hsin
  have hnorm : (perpRef l.axis).normalize.length = 1 :=
    Vec3.length_normalize _ hperp
  refine ⟨e1, e2, ?_, ?_⟩
  · rw [e1, Vec3.distanceTo, Vec3.add_sub_cancel_left,
      Vec3.length_multiplyScalar, hnorm, mul_one, abs_of_nonneg hoff]
  · rw [e2, Vec3.distanceTo, Vec3.add_sub_cancel_left,
      Vec3.length_multiplyScalar, hnorm, mul_one, abs_neg,
      abs_of_nonneg hoff]

/-- Witness for C4 at the sample link with f = 1. -/
theorem C4_strutPositions_witness :
    (0:ℝ) ≤ 1 ∧ 0 ≤ sampleLink.strutLength
      ∧ (perpRef sampleLink.axis).length ≠ 0
      ∧ ((sampleLink.setExpansion 1).strut1Pos
          = sampleLink.position.add
              ((perpRef sampleLink.axis).normalize.multiplyScalar
                ((sampleLink.strutLength / 2) * Real.sin (1 * Real.pi / 2)))
        ∧ (sampleLink.setExpansion 1).strut2Pos
          = sampleLink.position.add
              ((perpRef sampleLink.axis).normalize.multiplyScalar
                (-((sampleLink.strutLength / 2) * Real.sin (1 * Real.pi / 2))))
        ∧ (sampleLink.setExpansion 1).strut1Pos.distanceTo sampleLink.position
          = (sampleLink.strutLength / 2) * Real.sin (1 * Real.pi / 2)
        ∧ (sampleLink.setExpansion 1).strut2Pos.distanceTo sampleLink.position
          = (sampleLink.strutLength / 2) * Real.sin (1 * Real.pi / 2)) :=
  ⟨zero_le_one, by norm_num [sampleLink],
   by norm_num [perpRef, sampleLink, Vec3.cross, Vec3.length, Real.sqrt_one],
   C4_strutPositions sampleLink 1 zero_le_one le_rfl
     (by norm_num [sampleLink])
     (by norm_num [perpRef, sampleLink, Vec3.cross, Vec3.length,
        Real.sqrt_one])⟩

/-- Claim C5: after setExpansion(f) with f in the unit interval and
openAngle = f * pi/2, offset = (strutLength/2) * sin(openAngle), height =
(strutLength/2) * cos(openAngle), the four endpoints are
center plus-or-minus axis*height plus-or-minus perp1*offset with sign
combinations top1 = (+,+), top2 = (+,-), bottom1 = (-,+),
bottom2 = (-,-). -/
theorem C5_endpoints (l : ScissorLink) (f : ℝ) (hf : 0 ≤ f) (hf1 : f ≤ 1) :
    (l.setExpansion f).top1
        = (l.position.add (l.axis.multiplyScalar
            ((l.strutLength / 2) * Real.cos (f * Real.pi / 2)))).add
            ((perpRef l.axis).normalize.multiplyScalar
              ((l.strutLength / 2) * Real.sin (f * Real.pi / 2)))
      ∧ (l.setExpansion f).top2
        = (l.position.add (l.axis.multiplyScalar
            ((l.strutLength / 2) * Real.cos (f * Real.pi / 2)))).add
            ((perpRef l.axis).normalize.multiplyScalar
              (-((l.strutLength / 2) * Real.sin (f * Real.pi / 2))))
      ∧ (l.setExpansion f).bottom1
        = (l.position.add (l.axis.multiplyScalar
            (-((l.strutLength / 2) * Real.cos (f * Real.pi / 2))))).add
            ((perpRef l.axis).normalize.multiplyScalar
              ((l.strutLength / 2) * Real.sin (f * Real.pi / 2)))
      ∧ (l.setExpansion f).bottom2
        = (l.position.add (l.axis.multiplyScalar
            (-((l.strutLength / 2) * Real.cos (f * Real.pi / 2))))).add
            ((perpRef l.axis).normalize.multiplyScalar
              (-((l.strutLength / 2) * Real.sin (f * Real.pi / 2)))) := by
  have hclamp : max 0 (min 1 f) = f := clamp01_eq_self hf hf1
  refine ⟨?_, ?_, ?_, ?_⟩ <;>
    simp only [ScissorLink.setExpansion, ScissorLink.updateGeometry, hclamp]

/-- Witness for C5 at the sample link with f = 0. -/
theorem C5_endpoints_witness :
    (0:ℝ) ≤ 0 ∧ (0:ℝ) ≤ 1
      ∧ ((sampleLink.setExpansion 0).top1
          = (sampleLink.position.add (sampleLink.axis.multiplyScalar
              ((sampleLink.strutLength / 2) * Real.cos (0 * Real.pi / 2)))).add
              ((perpRef sampleLink.axis).normalize.multiplyScalar
                ((sampleLink.strutLength / 2) * Real.sin (0 * Real.pi / 2)))
        ∧ (sampleLink.setExpansion 0).top2
          = (sampleLink.position.add (sampleLink.axis.multiplyScalar
              ((sampleLink.strutLength / 2) * Real.cos (0 * Real.pi / 2)))).add
              ((perpRef sampleLink.axis).normalize.multiplyScalar
                (-((sampleLink.strutLength / 2) * Real.sin (0 * Real.pi / 2))))
        ∧ (sampleLink.setExpansion 0).bottom1
          = (sampleLink.position.add (sampleLink.axis.multiplyScalar
              (-((sampleLink.strutLength / 2) * Real.cos (0 * Real.pi / 2))))).add
              ((perpRef sampleLink.axis).normalize.multiplyScalar
                ((sampleLink.strutLength / 2) * Real.sin (0 * Real.pi / 2)))
        ∧ (sampleLink.setExpansion 0).bottom2
          = (sampleLink.position.add (sampleLink.axis.multiplyScalar
              (-((sampleLink.strutLength / 2) * Real.cos (0 * Real.pi / 2))))).add
              ((perpRef sampleLink.axis).normalize.multiplyScalar
                (-((sampleLink.strutLength / 2) * Real.sin (0 * Real.pi / 2))))) :=
  ⟨le_rfl, zero_le_one, C5_endpoints sampleLink 0 le_rfl zero_le_one⟩

/-- Claim C6: vertex deduplication during assembly build uses the
Euclidean-distance threshold 0.0001: two input vertices at distance
0.00005 yield exactly one ScissorLink, at distance 0.0002 two. -/
theorem C6_dedup (cfg : SphereConfig) (v1 v2 w1 w2 : Vec3)
    (h1 : v1.distanceTo v2 = 0.00005) (h2 : w1.distanceTo w2 = 0.0002) :
    (HobermanSphere.construct cfg [v1, v2]).scissorLinks.length = 1
      ∧ (HobermanSphere.construct cfg [w1, w2]).scissorLinks.length = 2 := by
  constructor
  · have hlt : v1.distanceTo v2 < 0.0001 := by rw [h1]; norm_num
    simp [HobermanSphere.construct, removeDuplicateVertices, hlt]
  · have hge : ¬ w1.distanceTo w2 < 0.0001 := by rw [h2]; norm_num
    simp [HobermanSphere.construct, removeDuplicateVertices, hge]

/-- Witness for C6 with concrete points on the x-axis. -/
theorem C6_dedup_witness :
    Vec3.distanceTo ⟨0, 0, 0⟩ ⟨0.00005, 0, 0⟩ = 0.00005
      ∧ Vec3.distanceTo ⟨0, 0, 0⟩ ⟨0.0002, 0, 0⟩ = 0.0002
      ∧ ((HobermanSphere.construct sampleConfig
            [⟨0, 0, 0⟩, ⟨0.00005, 0, 0⟩]).scissorLinks.length = 1
        ∧ (HobermanSphere.construct sampleConfig
            [⟨0, 0, 0⟩, ⟨0.0002, 0, 0⟩]).scissorLinks.length = 2) := by
  have p1 : Vec3.distanceTo ⟨0, 0, 0⟩ ⟨0.00005, 0, 0⟩ = 0.00005 := by
    rw [Vec3.distanceTo_xAxis]; norm_num
  have p2 : Vec3.distanceTo ⟨0, 0, 0⟩ ⟨0.0002, 0, 0⟩ = 0.0002 := by
    rw [Vec3.distanceTo_xAxis]; norm_num
  exact ⟨p1, p2, C6_dedup sampleConfig _ _ _ _ p1 p2⟩

/-- Claim C7: during assembly build a connecting strut is created for a
pair of direction vertices exactly when their chord distance is below the
threshold 1.2; a pair at distance 1.19 gets one, a pair at 1.21 does
not. -/
theorem C7_adjacency (v1 v2 w1 w2 : Vec3)
    (h1 : v1.distanceTo v2 = 1.19) (h2 : w1.distanceTo w2 = 1.21) :
    (createConnectingStruts [v1, v2]).length = 1
      ∧ (createConnectingStruts [w1, w2]).length = 0
      ∧ ∀ v w : Vec3,
          ((createConnectingStruts [v, w]).length = 1
            ↔ v.distanceTo w < 1.2) := by
  have expand : ∀ v w : Vec3,
      createConnectingStruts [v, w]
        = if v.distanceTo w < 1.2 then [createConnectionStrut v w]
          else [] := by
    intro v w
    by_cases hvw : v.distanceTo w < 1.2 <;>
      simp [createConnectingStruts, connectFrom, hvw]
  refine ⟨?_, ?_, ?_⟩
  · rw [expand v1 v2, if_pos (by rw [h1]; norm_num)]
    rfl
  · rw [expand w1 w2, if_neg (by rw [h2]; norm_num)]
    rfl
  · intro v w
    by_cases hvw : v.distanceTo w < 1.2
    · rw [expand v w, if_pos hvw]
      simp [hvw]
    · rw [expand v w, if_neg hvw]
      simp [hvw]

/-- Witness for C7 with concrete points on the x-axis. -/
theorem C7_adjacency_witness :
    Vec3.distanceTo ⟨0, 0, 0⟩ ⟨1.19, 0, 0⟩ = 1.19
      ∧ Vec3.distanceTo ⟨0, 0, 0⟩ ⟨1.21, 0, 0⟩ = 1.21
      ∧ ((createConnectingStruts [⟨0, 0, 0⟩, ⟨1.19, 0, 0⟩]).length = 1
        ∧ (createConnectingStruts [⟨0, 0, 0⟩, ⟨1.21, 0, 0⟩]).length = 0
        ∧ ∀ v w : Vec3,
            ((createConnectingStruts [v, w]).length = 1
              ↔ v.distanceTo w < 1.2)) := by
  have p1 : Vec3.distanceTo ⟨0, 0, 0⟩ ⟨1.19, 0, 0⟩ = 1.19 := by
    rw [Vec3.distanceTo_xAxis]; norm_num
  have p2 : Vec3.distanceTo ⟨0, 0, 0⟩ ⟨1.21, 0, 0⟩ = 1.21 := by
    rw [Vec3.distanceTo_xAxis]; norm_num
  exact ⟨p1, p2, C7_adjacency _ _ _ _ p1 p2⟩

/-- Claim C8: assembly setExpansion(f) recomputes every connecting strut
by scaling each stored reference endpoint by
(minRadius + (maxRadius - minRadius) * f) / maxRadius and re-deriving
midpoint, length and orientation from the two scaled endpoints;
consequently setExpansion(0); setExpansion(1); setExpansion(0) returns
every connecting-strut midpoint and length to its original value. -/
theorem C8_connectionStruts (h : HobermanSphere) (f : ℝ)
    (hf : 0 ≤ f) (hf1 : f ≤ 1) :
    (h.setExpansion f).connectionStruts
        = h.connectionStruts.map (fun s =>
            { s with
              midpoint :=
                ((s.point1.multiplyScalar (connectionScale h.config f)).add
                  (s.point2.multiplyScalar
                    (connectionScale h.config f))).multiplyScalar 0.5
              len :=
                ((s.point2.multiplyScalar (connectionScale h.config f)).sub
                  (s.point1.multiplyScalar (connectionScale h.config f))).length
              dir :=
                ((s.point2.multiplyScalar (connectionScale h.config f)).sub
                  (s.point1.multiplyScalar
                    (connectionScale h.config f))).normalize })
      ∧ (((h.setExpansion 0).setExpansion 1).setExpansion 0).connectionStruts.map
            (fun s => (s.midpoint, s.len))
        = (h.setExpansion 0).connectionStruts.map
            (fun s => (s.midpoint, s.len)) := by
  constructor
  · rw [HobermanSphere.setExpansion_connectionStruts,
      clamp01_eq_self hf hf1]
    congr 1
  · have hlists :
        (((h.setExpansion 0).setExpansion 1).setExpansion 0).connectionStruts
          = (h.setExpansion 0).connectionStruts := by
      rw [HobermanSphere.setExpansion_connectionStruts,
        HobermanSphere.setExpansion_connectionStruts,
        HobermanSphere.setExpansion_connectionStruts,
        HobermanSphere.setExpansion_config, HobermanSphere.setExpansion_config,
        List.map_map, List.map_map]
      congr 1
    rw [hlists]

/-- Witness for C8 at the concrete sample assembly with f = 1/2. -/
theorem C8_connectionStruts_witness :
    (0:ℝ) ≤ 1 / 2 ∧ (1:ℝ) / 2 ≤ 1
      ∧ ((sampleAssembly.setExpansion (1 / 2)).connectionStruts
          = sampleAssembly.connectionStruts.map (fun s =>
              { s with
                midpoint :=
                  ((s.point1.multiplyScalar
                      (connectionScale sampleAssembly.config (1 / 2))).add
                    (s.point2.multiplyScalar
                      (connectionScale sampleAssembly.config
                        (1 / 2)))).multiplyScalar 0.5
                len :=
                  ((s.point2.multiplyScalar
                      (connectionScale sampleAssembly.config (1 / 2))).sub
                    (s.point1.multiplyScalar
                      (connectionScale sampleAssembly.config (1 / 2)))).length
                dir :=
                  ((s.point2.multiplyScalar
                      (connectionScale sampleAssembly.config (1 / 2))).sub
                    (s.point1.multiplyScalar
                      (connectionScale sampleAssembly.config
                        (1 / 2)))).normalize })
        ∧ (((sampleAssembly.setExpansion 0).setExpansion 1).setExpansion
              0).connectionStruts.map (fun s => (s.midpoint, s.len))
          = (sampleAssembly.setExpansion 0).connectionStruts.map
              (fun s => (s.midpoint, s.len))) :=
  ⟨by norm_num, by norm_num,
   C8_connectionStruts sampleAssembly (1 / 2) (by norm_num) (by norm_num)⟩

/-- Claim C9: while the assembly is paused (isAnimating false), every
update call leaves the whole state, in particular the expansion factor
and the rotation state, unchanged at its last values. -/
theorem C9_paused_update (h : HobermanSphere) (deltaTime now : ℝ)
    (hA : h.isAnimating = false) : h.update deltaTime now = h := by
  simp [HobermanSphere.update, hA]

/-- Witness for C9 on the concrete paused sample assembly. -/
theorem C9_paused_update_witness :
    sampleAssembly.isAnimating = false
      ∧ sampleAssembly.update 1 0 = sampleAssembly :=
  ⟨rfl, C9_paused_update sampleAssembly 1 0 rfl⟩

/-- Claim C10 (implicit): immediately after construction both the
assembly expansionFactor and every owned link expansionFactor are 0.5
(not 0); after every assembly setExpansion, and after every animating
update, every owned link expansionFactor equals the assembly's clamped
expansionFactor. -/
theorem C10_expansion_invariant (cfg : SphereConfig) (verts : List Vec3)
    (h : HobermanSphere) (f deltaTime now : ℝ)
    (hA : h.isAnimating = true) :
    (HobermanSphere.construct cfg verts).expansionFactor = 0.5
      ∧ (HobermanSphere.construct cfg verts).scissorLinks.Forall
          (fun l => l.expansionFactor = 0.5)
      ∧ (h.setExpansion f).scissorLinks.Forall
          (fun l => l.expansionFactor = (h.setExpansion f).expansionFactor)
      ∧ (h.update deltaTime now).scissorLinks.Forall
          (fun l =>
            l.expansionFactor = (h.update deltaTime now).expansionFactor) := by
  refine ⟨rfl, ?_, ?_, ?_⟩
  · rw [List.forall_iff_forall_mem]
    intro l hm
    have e : (HobermanSphere.construct cfg verts).scissorLinks
        = (removeDuplicateVertices verts).map (createRadialScissorLink cfg) :=
      rfl
    rw [e] at hm
    obtain ⟨v, _, rfl⟩ := List.mem_map.mp hm
    rfl
  · rw [List.forall_iff_forall_mem]
    exact setExpansion_link_factor h f
  · rw [List.forall_iff_forall_mem]
    intro l hm
    have hu := HobermanSphere.update_animating h deltaTime now hA
    rw [hu.1] at hm
    rw [hu.2]
    exact setExpansion_link_factor h _ l hm

/-- Witness for C10 on concrete assemblies. -/
theorem C10_expansion_invariant_witness :
    (sampleAssembly.startAnimation).isAnimating = true
      ∧ ((HobermanSphere.construct sampleConfig [⟨1, 0, 0⟩]).expansionFactor
          = 0.5
        ∧ (HobermanSphere.construct sampleConfig
            [⟨1, 0, 0⟩]).scissorLinks.Forall
            (fun l => l.expansionFactor = 0.5)
        ∧ (sampleAssembly.startAnimation.setExpansion
            (1 / 2)).scissorLinks.Forall
            (fun l =>
              l.expansionFactor
                = (sampleAssembly.startAnimation.setExpansion
                    (1 / 2)).expansionFactor)
        ∧ (sampleAssembly.startAnimation.update 1 0).scissorLinks.Forall
            (fun l =>
              l.expansionFactor
                = (sampleAssembly.startAnimation.update
                    1 0).expansionFactor)) :=
  ⟨rfl,
   C10_expansion_invariant sampleConfig [⟨1, 0, 0⟩]
     sampleAssembly.startAnimation (1 / 2) 1 0 rfl⟩

end
